import Mathlib

/-!
Verification of the conversation-stage orchestrator and travel-data
retrieval pipeline of the travel-sage-scribe repository.

The TypeScript sources under `supabase/functions/travel-chat/` are
shallowly embedded below: JSON values are an inductive `Json` type
(JavaScript numbers are idealised as rationals), strings are `String` /
`List Char`, network calls are modelled by passing each call's response
(`Option Json`, `none` standing for a non-2xx status, non-JSON body or
network failure) as an explicit argument, and thrown exceptions are
modelled as `Option` results.
-/

set_option maxRecDepth 100000

/-- JSON values as produced by `JSON.parse`.  JavaScript numbers are
idealised as rational numbers. -/
inductive Json where
  | null
  | bool (b : Bool)
  | num (q : Rat)
  | str (s : String)
  | arr (elems : List Json)
  | obj (fields : List (String × Json))

/-- Field lookup on a JSON value, modelling JavaScript property access
`v.key`: `none` models `undefined` (missing key or non-object). -/
def Json.get : Json → String → Option Json
  | .obj fields, key => fields.lookup key
  | _, _ => none

/-- JavaScript truthiness of a JSON value (`null`, `false`, `0` and `""`
are falsy; objects and arrays are always truthy). -/
def Json.truthy : Json → Bool
  | .null => false
  | .bool b => b
  | .num q => q != 0
  | .str s => s != ""
  | .arr _ => true
  | .obj _ => true

/-- Truthiness of a possibly-`undefined` JavaScript value. -/
def jsTruthy : Option Json → Bool
  | none => false
  | some v => v.truthy

/-- The JavaScript nullish-coalescing operator `v ?? d`. -/
def jsCoalesce (v : Option Json) (d : Json) : Json :=
  match v with
  | none => d
  | some .null => d
  | some x => x

/-- Characters treated as whitespace by JavaScript `\s`, `trim` and the
string-trimming done by the extraction code. -/
def jsIsWs (c : Char) : Bool :=
  c == ' ' || c == '\t' || c == '\n' || c == '\r' ||
  c.val == 0x0B || c.val == 0x0C || c.val == 0xA0 || c.val == 0x1680 ||
  (0x2000 ≤ c.val && c.val ≤ 0x200A) || c.val == 0x2028 || c.val == 0x2029 ||
  c.val == 0x202F || c.val == 0x205F || c.val == 0x3000 || c.val == 0xFEFF

/-- JavaScript `String.prototype.trim` on a character list. -/
def jsTrim (cs : List Char) : List Char :=
  ((cs.dropWhile jsIsWs).reverse.dropWhile jsIsWs).reverse

/-- ASCII lowercasing, modelling `toLowerCase` on the ASCII inputs this
code manipulates. -/
def jsLowerChar (c : Char) : Char := c.toLower

/-- Lowercase a character list. -/
def jsLower (cs : List Char) : List Char := cs.map jsLowerChar

/-- ASCII uppercasing, modelling `toUpperCase`. -/
def jsUpper (s : String) : String := String.mk (s.data.map Char.toUpper)

/-- Does `needle` occur at the head of `hay`? -/
def leadsWith : List Char → List Char → Bool
  | [], _ => true
  | _ :: _, [] => false
  | n :: ns, h :: hs => n == h && leadsWith ns hs

/-- Substring test on character lists, modelling
`String.prototype.includes`. -/
def hasSub (needle hay : List Char) : Bool :=
  match hay with
  | [] => needle.isEmpty
  | _ :: rest => leadsWith needle hay || hasSub needle rest

/-- Index of the first occurrence of `needle` in `hay`. -/
def findSub (needle hay : List Char) : Option Nat :=
  match hay with
  | [] => if needle.isEmpty then some 0 else none
  | _ :: rest =>
    if leadsWith needle hay then some 0
    else (findSub needle rest).map (· + 1)

/-- Replace the first occurrence of `pat` in `s` by `rep` (no occurrence:
`s` unchanged), modelling `String.prototype.replace` with a string
pattern whose replacement contains no `$` escape. -/
def replaceFirst (s pat rep : List Char) : List Char :=
  match findSub pat s with
  | none => s
  | some i => s.take i ++ rep ++ s.drop (i + pat.length)

/-- The text before the first occurrence of `sep` in `s` (the whole of
`s` when `sep` does not occur), modelling `s.split(sep)[0]`. -/
def splitHead (sep s : List Char) : List Char :=
  match findSub sep s with
  | none => s
  | some i => s.take i

/-- Worker for `collapseWs`; the flag records whether the previous
character was whitespace (already emitted as a single space). -/
def collapseWsAux : Bool → List Char → List Char
  | _, [] => []
  | inWs, c :: rest =>
    if jsIsWs c then
      if inWs then collapseWsAux true rest
      else ' ' :: collapseWsAux true rest
    else c :: collapseWsAux false rest

/-- Collapse every maximal run of whitespace to a single space,
modelling `s.replace(/\s+/g, " ")`. -/
def collapseWs (cs : List Char) : List Char := collapseWsAux false cs

/-! ### A model of `JSON.parse`

The extraction code calls `JSON.parse` on the payload of the delimited
block.  The parser below implements the JSON grammar (RFC 8259, the
grammar `JSON.parse` accepts): a single value surrounded by optional
whitespace, objects keeping the first position and last value of a
duplicated key.  It is written as an explicit-stack machine driven by a
fuel counter so that every definition is structurally recursive. -/

/-- Whitespace accepted between JSON tokens. -/
def jsonWsChar (c : Char) : Bool :=
  c == ' ' || c == '\t' || c == '\n' || c == '\r'

/-- Drop leading JSON whitespace. -/
def skipJsonWs (cs : List Char) : List Char := cs.dropWhile jsonWsChar

/-- Value of a hexadecimal digit. -/
def hexDigitVal (c : Char) : Option Nat :=
  if '0' ≤ c ∧ c ≤ '9' then some (c.toNat - '0'.toNat)
  else if 'a' ≤ c ∧ c ≤ 'f' then some (c.toNat - 'a'.toNat + 10)
  else if 'A' ≤ c ∧ c ≤ 'F' then some (c.toNat - 'A'.toNat + 10)
  else none

/-- Parse the body of a JSON string literal (the opening quote already
consumed), returning the decoded text and the input after the closing
quote. -/
def parseJsonStrBody : List Char → Option (List Char × List Char)
  | [] => none
  | '"' :: rest => some ([], rest)
  | '\\' :: 'u' :: h1 :: h2 :: h3 :: h4 :: rest =>
    (match hexDigitVal h1, hexDigitVal h2, hexDigitVal h3, hexDigitVal h4 with
     | some a, some b, some c, some d =>
       (parseJsonStrBody rest).map fun (cs, rem) =>
         (Char.ofNat (((a * 16 + b) * 16 + c) * 16 + d) :: cs, rem)
     | _, _, _, _ => none)
  | '\\' :: e :: rest =>
    (let dec : Option Char :=
      if e == '"' then some '"'
      else if e == '\\' then some '\\'
      else if e == '/' then some '/'
      else if e == 'b' then some (Char.ofNat 8)
      else if e == 'f' then some (Char.ofNat 12)
      else if e == 'n' then some '\n'
      else if e == 'r' then some '\r'
      else if e == 't' then some '\t'
      else none
    match dec with
    | none => none
    | some ch =>
      (parseJsonStrBody rest).map fun (cs, rem) => (ch :: cs, rem))
  | c :: rest =>
    if c.val < 0x20 then none
    else (parseJsonStrBody rest).map fun (cs, rem) => (c :: cs, rem)

/-- Take a maximal run of decimal digits. -/
def takeDigits : List Char → (List Char × List Char)
  | [] => ([], [])
  | c :: rest =>
    if '0' ≤ c ∧ c ≤ '9' then
      let (ds, rem) := takeDigits rest
      (c :: ds, rem)
    else ([], c :: rest)

/-- Numeric value of a digit run. -/
def digitsToNat : List Char → Nat
  | [] => 0
  | ds => ds.foldl (fun acc c => acc * 10 + (c.toNat - '0'.toNat)) 0

/-- Parse a JSON number literal (`-? (0 | [1-9][0-9]*) frac? exp?`),
returning its exact rational value. -/
def parseJsonNum (cs : List Char) : Option (Rat × List Char) :=
  let (neg, cs1) :=
    match cs with
    | '-' :: rest => (true, rest)
    | _ => (false, cs)
  let (intDs, cs2) := takeDigits cs1
  if intDs.isEmpty then none
  else if intDs.length > 1 ∧ intDs.headD '0' == '0' then none
  else
    let (fracDs, cs3) :=
      match cs2 with
      | '.' :: rest =>
        let (ds, rem) := takeDigits rest
        (ds, rem)
      | _ => ([], cs2)
    match cs2, fracDs with
    | '.' :: _, [] => none
    | _, _ =>
      let expPart : Option (Int × List Char) :=
        match cs3 with
        | e :: rest =>
          if e == 'e' ∨ e == 'E' then
            let (esign, rest1) :=
              match rest with
              | '+' :: r => ((1 : Int), r)
              | '-' :: r => ((-1 : Int), r)
              | r => ((1 : Int), r)
            let (eds, rest2) := takeDigits rest1
            if eds.isEmpty then none
            else some (esign * (digitsToNat eds : Int), rest2)
          else some (0, cs3)
        | [] => some (0, cs3)
      match expPart with
      | none => none
      | some (ex, rem) =>
        let mantissa : Rat :=
          (digitsToNat intDs : Rat) +
            (digitsToNat fracDs : Rat) / ((10 : Rat) ^ fracDs.length)
        let scaled : Rat :=
          if ex ≥ 0 then mantissa * (10 : Rat) ^ ex.toNat
          else mantissa / ((10 : Rat) ^ (-ex).toNat)
        some ((if neg then -scaled else scaled), rem)

/-- Insert a key/value pair into object fields the way `JSON.parse`
treats duplicate keys: the first position wins, the last value wins. -/
def objInsert (fields : List (String × Json)) (key : String) (v : Json) :
    List (String × Json) :=
  match fields with
  | [] => [(key, v)]
  | (k, w) :: rest =>
    if k == key then (k, v) :: rest
    else (k, w) :: objInsert rest key v

/-- A partially-built JSON container on the parser stack. -/
inductive JFrame where
  | inArr (acc : List Json)
  | inObj (acc : List (String × Json)) (key : String)

/-- Parser modes: expecting a value, or closing a finished value into
the enclosing container. -/
inductive JMode where
  | expectVal
  | closeVal (v : Json)

/-- One-value-per-step JSON parsing machine.  Each step consumes at
least one input character or pops the stack, so `2 * length + 4` fuel
always suffices. -/
def jsonRun : Nat → JMode → List JFrame → List Char → Option (Json × List Char)
  | 0, _, _, _ => none
  | Nat.succ fuel, JMode.expectVal, stack, cs =>
    match skipJsonWs cs with
    | [] => none
    | c :: rest =>
      if c == 'n' then
        match rest with
        | 'u' :: 'l' :: 'l' :: rem => jsonRun fuel (JMode.closeVal Json.null) stack rem
        | _ => none
      else if c == 't' then
        match rest with
        | 'r' :: 'u' :: 'e' :: rem => jsonRun fuel (JMode.closeVal (Json.bool true)) stack rem
        | _ => none
      else if c == 'f' then
        match rest with
        | 'a' :: 'l' :: 's' :: 'e' :: rem => jsonRun fuel (JMode.closeVal (Json.bool false)) stack rem
        | _ => none
      else if c == '"' then
        match parseJsonStrBody rest with
        | none => none
        | some (chars, rem) => jsonRun fuel (JMode.closeVal (Json.str (String.mk chars))) stack rem
      else if c == '[' then
        match skipJsonWs rest with
        | ']' :: rem => jsonRun fuel (JMode.closeVal (Json.arr [])) stack rem
        | _ => jsonRun fuel JMode.expectVal (JFrame.inArr [] :: stack) rest
      else if c == '{' then
        match skipJsonWs rest with
        | '}' :: rem => jsonRun fuel (JMode.closeVal (Json.obj [])) stack rem
        | '"' :: rest' =>
          match parseJsonStrBody rest' with
          | none => none
          | some (key, rest'') =>
            match skipJsonWs rest'' with
            | ':' :: rest''' =>
              jsonRun fuel JMode.expectVal (JFrame.inObj [] (String.mk key) :: stack) rest'''
            | _ => none
        | _ => none
      else
        match parseJsonNum (c :: rest) with
        | none => none
        | some (q, rem) => jsonRun fuel (JMode.closeVal (Json.num q)) stack rem
  | Nat.succ fuel, JMode.closeVal v, stack, cs =>
    match stack with
    | [] => some (v, cs)
    | JFrame.inArr acc :: stack' =>
      match skipJsonWs cs with
      | ',' :: rest => jsonRun fuel JMode.expectVal (JFrame.inArr (acc ++ [v]) :: stack') rest
      | ']' :: rest => jsonRun fuel (JMode.closeVal (Json.arr (acc ++ [v]))) stack' rest
      | _ => none
    | JFrame.inObj acc key :: stack' =>
      match skipJsonWs cs with
      | ',' :: rest =>
        match skipJsonWs rest with
        | '"' :: rest' =>
          match parseJsonStrBody rest' with
          | none => none
          | some (key', rest'') =>
            match skipJsonWs rest'' with
            | ':' :: rest''' =>
              jsonRun fuel JMode.expectVal
                (JFrame.inObj (objInsert acc key v) (String.mk key') :: stack') rest'''
            | _ => none
        | _ => none
      | '}' :: rest =>
        jsonRun fuel (JMode.closeVal (Json.obj (objInsert acc key v))) stack' rest
      | _ => none

/-- The model of `JSON.parse s`: `none` when `JSON.parse` would throw a
`SyntaxError`. -/
def jsonParse (cs : List Char) : Option Json :=
  match jsonRun (2 * cs.length + 4) JMode.expectVal [] cs with
  | none => none
  | some (v, rem) =>
    if (skipJsonWs rem).isEmpty then some v else none

/-! ### Extraction-block parsing (travel-chat/index.ts, serve handler)

Models the code
```
const extractMatch = aiResponse.match(/\|\|\|EXTRACT\|\|\|(.*?)\|\|\|END\|\|\|/s);
let extractedData = {};
if (extractMatch) {
  try {
    extractedData = JSON.parse(extractMatch[1].trim());
    aiResponse = aiResponse.replace(/\|\|\|EXTRACT\|\|\|.*?\|\|\|END\|\|\|/s, '').trim();
  } catch (e) { console.error("Failed to parse extracted data:", e); }
}
```
The lazy regex locates the first `|||EXTRACT|||` delimiter followed by
an `|||END|||` delimiter and captures the shortest payload in between;
note that the `replace` call runs only when `JSON.parse` succeeds. -/

/-- The opening delimiter of an extraction block. -/
def extractOpenDelim : List Char := "|||EXTRACT|||".data

/-- The closing delimiter of an extraction block. -/
def extractCloseDelim : List Char := "|||END|||".data

/-- Locate the first well-formed delimited block, returning the text
before the block, the payload, and the text after the block.  This is
the match of the lazy regex `\|\|\|EXTRACT\|\|\|(.*?)\|\|\|END\|\|\|`
with the `s` flag: the leftmost opening delimiter that is followed by a
closing delimiter, with the shortest payload. -/
def findExtractBlock (s : List Char) :
    Option (List Char × List Char × List Char) :=
  match findSub extractOpenDelim s with
  | none => none
  | some i =>
    let rest := s.drop (i + extractOpenDelim.length)
    match findSub extractCloseDelim rest with
    | none => none
    | some j =>
      some (s.take i, rest.take j, rest.drop (j + extractCloseDelim.length))

/-- The extraction step run on the raw model reply: returns the
user-visible text and the decoded extraction object (`Json.obj []`,
the value of the initialiser `{}`, when no block is found or the
payload does not decode). -/
def extractFromReply (reply : String) : String × Json :=
  match findExtractBlock reply.data with
  | none => (reply, Json.obj [])
  | some (before, payload, after) =>
    match jsonParse (jsTrim payload) with
    | some v => (String.mk (jsTrim (before ++ after)), v)
    | none => (reply, Json.obj [])

/-! ### Request-URL builders (bookingClient.ts and flightClient.ts)

`BookingComAPI._makeApiCall` builds
```
const url = `https:///${this.API_HOST}${endpoint}`;
```
while `BookingComFlightsAPI._makeApiCall` builds
```
const url = `https://${this.API_HOST}${endpoint}`;
```
-/

/-- Request URL built by the hotel client `BookingComAPI._makeApiCall`
(note the three slashes in the source template). -/
def bookingMakeApiCallUrl (apiHost endpoint : String) : String :=
  "https:///" ++ apiHost ++ endpoint

/-- Request URL built by the flight client
`BookingComFlightsAPI._makeApiCall`. -/
def flightsMakeApiCallUrl (apiHost endpoint : String) : String :=
  "https://" ++ apiHost ++ endpoint

/-! ### Upstream model-error mapping (both serve handlers)

Models the `if (!response.ok) { ... }` blocks: the OpenAI handler in
index.ts maps 429 and 401 to dedicated responses and throws otherwise
(the surrounding catch then answers with status 500 and the thrown
message); the Lovable handler in test-booking.ts maps 429 and 402 and
likewise falls back to a 500. -/

/-- Response (status code and error message) produced by the OpenAI
serve handler of index.ts when the provider response is not ok. -/
def openAiFailureResponse (status : Nat) : Nat × String :=
  if status = 429 then
    (429, "Rate limit exceeded. Please try again later.")
  else if status = 401 then
    (401, "Invalid API key. Please check your OpenAI configuration.")
  else
    (500, "OpenAI API error: " ++ toString status)

/-- Response (status code and error message) produced by the Lovable AI
serve handler of test-booking.ts when the provider response is not ok. -/
def lovableFailureResponse (status : Nat) : Nat × String :=
  if status = 429 then
    (429, "Rate limit exceeded. Please try again later.")
  else if status = 402 then
    (402, "Payment required. Please add credits to continue.")
  else
    (500, "AI API error: " ++ toString status)

/-! ### Conversation state, stage selection and extraction merge
(travel-chat/index.ts, serve handler)

The conversation row holds denormalised `destination` / `budget` /
`start_date` columns plus a `preferences` JSON blob
(`conversationData = conversation?.preferences || {}`); the blob is
modelled directly by its field list (a NULL blob behaves exactly like
`{}` under property access).  The `has*` flags are the truthiness of
the field-presence expressions of index.ts lines 194-203. -/

/-- The conversation row as read by the serve handler. -/
structure Conversation where
  destination : Option Json
  budget : Option Json
  start_date : Option Json
  preferences : List (String × Json)

/-- Flag `hasOrigin = conversationData.origin`. -/
def hasOriginFlag (c : Conversation) : Bool :=
  jsTruthy (c.preferences.lookup "origin")

/-- Flag `hasDestination = conversation?.destination || conversationData.destination`. -/
def hasDestinationFlag (c : Conversation) : Bool :=
  jsTruthy c.destination || jsTruthy (c.preferences.lookup "destination")

/-- Flag `hasWeatherPreference = conversationData.weather_preference`. -/
def hasWeatherFlag (c : Conversation) : Bool :=
  jsTruthy (c.preferences.lookup "weather_preference")

/-- Flag `hasActivities = conversationData.activities`. -/
def hasActivitiesFlag (c : Conversation) : Bool :=
  jsTruthy (c.preferences.lookup "activities")

/-- Flag `hasBudget = conversation?.budget || conversationData.budget`. -/
def hasBudgetFlag (c : Conversation) : Bool :=
  jsTruthy c.budget || jsTruthy (c.preferences.lookup "budget")

/-- Flag `hasBudgetAllocation = conversationData.budget_allocation`. -/
def hasBudgetAllocationFlag (c : Conversation) : Bool :=
  jsTruthy (c.preferences.lookup "budget_allocation")

/-- Flag `hasDates = conversation?.start_date || conversationData.dates`. -/
def hasDatesFlag (c : Conversation) : Bool :=
  jsTruthy c.start_date || jsTruthy (c.preferences.lookup "dates")

/-- Flag `hasFlexibility = conversationData.date_flexibility`. -/
def hasFlexibilityFlag (c : Conversation) : Bool :=
  jsTruthy (c.preferences.lookup "date_flexibility")

/-- Flag `hasConfirmed = conversationData.confirmed`. -/
def hasConfirmedFlag (c : Conversation) : Bool :=
  jsTruthy (c.preferences.lookup "confirmed")

/-- The ten conversation stages of the if/else prompt chain
(index.ts lines 211-299; STAGE 10 is the Ready/recommendation stage). -/
inductive Stage where
  | needOrigin
  | needDestination
  | needWeather
  | needActivities
  | needBudget
  | needBudgetAllocation
  | needDates
  | needFlexibility
  | needConfirmation
  | ready
deriving DecidableEq

/-- The stage selected by the if/else chain of the serve handler: the
branch taken when building the stage-specific system prompt. -/
def selectStage (c : Conversation) : Stage :=
  if ¬ hasOriginFlag c then Stage.needOrigin
  else if ¬ hasDestinationFlag c then Stage.needDestination
  else if ¬ hasWeatherFlag c then Stage.needWeather
  else if ¬ hasActivitiesFlag c then Stage.needActivities
  else if ¬ hasBudgetFlag c then Stage.needBudget
  else if ¬ hasBudgetAllocationFlag c then Stage.needBudgetAllocation
  else if ¬ hasDatesFlag c then Stage.needDates
  else if ¬ hasFlexibilityFlag c then Stage.needFlexibility
  else if ¬ hasConfirmedFlag c then Stage.needConfirmation
  else Stage.ready

/-- The ordered field checklist (which fields are filled, in stage
order). -/
def stageChecklist (c : Conversation) : List Bool :=
  [hasOriginFlag c, hasDestinationFlag c, hasWeatherFlag c,
   hasActivitiesFlag c, hasBudgetFlag c, hasBudgetAllocationFlag c,
   hasDatesFlag c, hasFlexibilityFlag c, hasConfirmedFlag c]

/-- The stages corresponding to the checklist entries, in order. -/
def stageOrder : List Stage :=
  [Stage.needOrigin, Stage.needDestination, Stage.needWeather,
   Stage.needActivities, Stage.needBudget, Stage.needBudgetAllocation,
   Stage.needDates, Stage.needFlexibility, Stage.needConfirmation]

/-- Modelled from the spec: "scans the ordered field checklist and
returns the first unmet requirement; if all are met, returns Ready". -/
def specFirstUnmet : List Bool → List Stage → Stage
  | b :: bs, s :: ss => if b then specFirstUnmet bs ss else s
  | _, _ => Stage.ready

/-- The checklist of a record in which exactly the `i`-th field is
unfilled and every other field is filled. -/
def onlyMissing (i : Fin 9) : List Bool :=
  (List.range 9).map (fun j => decide (j ≠ i.val))

/-! ### Applying the decoded extraction object (index.ts lines 554-597)

Models the block that copies `conversationData` into `newPreferences`
and then conditionally overwrites fields from `extractedData`;
`destination` and `budget` go to the top-level `updates` object, with
the budget stringified by `extractedData.budget.toString()`. -/

/-- Smallest `k` (up to the fuel) such that `q * 10^k` is an integer. -/
def decExponent : Nat → Rat → Option Nat
  | 0, q => if q.den = 1 then some 0 else none
  | Nat.succ fuel, q =>
    if q.den = 1 then some 0
    else (decExponent fuel (q * 10)).map (· + 1)

/-- Decimal rendering of a JavaScript number, modelling
`Number.prototype.toString` for the finitely-representable decimal
values this code produces (other rationals fall back to the `Rat`
rendering; exponent notation for extreme magnitudes is not modelled). -/
def jsNumToString (q : Rat) : String :=
  match decExponent 400 q with
  | some 0 => toString q.num
  | some k =>
    let n := (q * (10 : Rat) ^ k).num
    let s := toString n.natAbs
    let s := if s.length ≤ k then
        String.mk (List.replicate (k + 1 - s.length) '0') ++ s
      else s
    (if q < 0 then "-" else "") ++
      String.mk (s.data.take (s.length - k)) ++ "." ++
      String.mk (s.data.drop (s.length - k))
  | none => toString q

/-- Stringification of an array element inside `Array.prototype.toString`
(`null` renders empty; nested containers are modelled shallowly). -/
def jsToStringElem : Json → String
  | Json.null => ""
  | Json.bool true => "true"
  | Json.bool false => "false"
  | Json.num q => jsNumToString q
  | Json.str s => s
  | Json.arr _ => ""
  | Json.obj _ => "[object Object]"

/-- JavaScript `toString` coercion of a JSON value. -/
def jsToString : Json → String
  | Json.null => "null"
  | Json.bool true => "true"
  | Json.bool false => "false"
  | Json.num q => jsNumToString q
  | Json.str s => s
  | Json.arr xs => String.intercalate "," (xs.map jsToStringElem)
  | Json.obj _ => "[object Object]"

/-- Conditional property write `if (v) { fields.key = v; }` (truthiness
guard used for every extracted field except `confirmed`). -/
def setIfTruthy (fields : List (String × Json)) (key : String)
    (v : Option Json) : List (String × Json) :=
  match v with
  | some x => if x.truthy then objInsert fields key x else fields
  | none => fields

/-- Property write guarded only by presence,
`if (v !== undefined) { fields.key = v; }` (used for `confirmed`). -/
def setIfPresent (fields : List (String × Json)) (key : String)
    (v : Option Json) : List (String × Json) :=
  match v with
  | some x => objInsert fields key x
  | none => fields

/-- Applying the decoded extraction object to the conversation:
`newPreferences` starts as a copy of `conversationData`, the six
truthiness-guarded preference fields and the top-level `destination`
and `budget` are overwritten when the decoded value is truthy
(the budget stringified), and `confirmed` is overwritten whenever the
key is present (`extractedData.confirmed !== undefined`). -/
def applyExtracted (c : Conversation) (extracted : Json) : Conversation :=
  let p1 := setIfTruthy c.preferences "origin" (extracted.get "origin")
  let p2 := setIfTruthy p1 "weather_preference" (extracted.get "weather_preference")
  let p3 := setIfTruthy p2 "activities" (extracted.get "activities")
  let p4 := setIfTruthy p3 "budget_allocation" (extracted.get "budget_allocation")
  let p5 := setIfTruthy p4 "dates" (extracted.get "dates")
  let p6 := setIfTruthy p5 "date_flexibility" (extracted.get "date_flexibility")
  let p7 := setIfPresent p6 "confirmed" (extracted.get "confirmed")
  { destination :=
      if jsTruthy (extracted.get "destination") then extracted.get "destination"
      else c.destination
    budget :=
      match extracted.get "budget" with
      | some v => if v.truthy then some (Json.str (jsToString v)) else c.budget
      | none => c.budget
    start_date := c.start_date
    preferences := p7 }

/-- Merge rule described by the spec for a truthiness-guarded field:
the new value wins only when truthy, otherwise the old value stays. -/
def truthyMerge (newVal oldVal : Option Json) : Option Json :=
  match newVal with
  | some v => if v.truthy then some v else oldVal
  | none => oldVal

/-- A conversation in which every checklist field except the budget is
filled. -/
def cBudgetMissing : Conversation :=
  { destination := some (Json.str "Paris")
    budget := none
    start_date := some (Json.str "2025-11-20")
    preferences :=
      [("origin", Json.str "London"),
       ("weather_preference", Json.str "tropical"),
       ("activities", Json.str "passive"),
       ("budget_allocation",
         Json.obj [("accommodation", Json.num 500),
                   ("flights", Json.num 300),
                   ("activities", Json.num 200)]),
       ("dates", Json.str "June"),
       ("date_flexibility", Json.str "flexible"),
       ("confirmed", Json.bool true)] }

/-- A conversation in which every checklist field is filled. -/
def cAllFilled : Conversation :=
  { cBudgetMissing with budget := some (Json.str "3000") }

/-! ### Flight-offer parsing (flightClient.ts, `parseFlightOffers`)

Models
```
let price = total_price_obj.units ?? 0;
const nanos = total_price_obj.nanos ?? 0;
price += nanos / 1_000_000_000;
...
price: parseFloat(price.toFixed(2)),
currency: total_price_obj.currencyCode ?? "N/A",
```
together with the summary construction.  `toFixed(2)` rounds half
towards positive infinity at two decimals and `parseFloat` reads the
decimal string back, modelled exactly on rationals by `jsToFixed2`. -/

/-- The number `parseFloat(x.toFixed(2))`: `x` rounded to 2 decimal
places, ties towards positive infinity. -/
def jsToFixed2 (q : Rat) : Rat := ((⌊q * 100 + 1 / 2⌋ : Int) : Rat) / 100

/-- Numeric value of `v ?? 0` where `v` is a JSON field: missing keys
and nulls count as 0; a non-numeric value yields `none` (the TS code
would go on to throw a `TypeError` at `price.toFixed`). -/
def numOrZero : Option Json → Option Rat
  | none => some 0
  | some Json.null => some 0
  | some (Json.num q) => some q
  | some _ => none

/-- JavaScript index access `v?.[0]` (first array element; first
character of a string; otherwise `undefined`). -/
def jsIndex0 : Json → Option Json
  | Json.arr (x :: _) => some x
  | Json.str s =>
    match s.data with
    | [] => none
    | c :: _ => some (Json.str (String.mk [c]))
  | _ => none

/-- Length `v.length` of an array or string value. -/
def jsLenOpt : Json → Option Nat
  | Json.arr xs => some xs.length
  | Json.str s => some s.length
  | _ => none

/-- The property key `String(v)` used by `Object.fromEntries`. -/
def jsPropertyKey : Option Json → String
  | none => "undefined"
  | some j => jsToString j

/-- An array-valued JSON field: `none` models a value over which the TS
code's `for..of` / `.map` would throw (non-iterable). -/
def asArray : Json → Option (List Json)
  | Json.arr xs => some xs
  | _ => none

/-- The value `field ?? []` as a list of elements. -/
def arrOrEmpty (v : Option Json) : Option (List Json) :=
  match v with
  | none => some []
  | some Json.null => some []
  | some x => asArray x

/-- A normalized flight offer (interface `FlightOffer`). -/
structure FlightOffer where
  price : Rat
  currency : Json
  token : Json
  tripType : Json
  segments : Json
  summary : String

/-- The `carriersData` map:
`Object.fromEntries((aggregation?.airlines ?? []).map(c => [c.iataCode, c]))`. -/
def buildCarriers (airlines : List Json) : List (String × Json) :=
  airlines.foldl (fun acc c => objInsert acc (jsPropertyKey (c.get "iataCode")) c) []

/-- The body of the `for (const offer of flightOffers)` loop of
`parseFlightOffers`; `none` models the `TypeError` thrown when the
price fields are neither numbers nor nullish. -/
def parseOneOffer (carriers : List (String × Json)) (offer : Json) :
    Option FlightOffer :=
  let segments := jsCoalesce (offer.get "segments") (Json.arr [Json.obj []])
  let priceBreakdown := jsCoalesce (offer.get "priceBreakdown") (Json.obj [])
  let total_price_obj := jsCoalesce (priceBreakdown.get "totalRounded") (Json.obj [])
  match numOrZero (total_price_obj.get "units"),
        numOrZero (total_price_obj.get "nanos") with
  | some units, some nanos =>
    let price := units + nanos / 1000000000
    let currency := jsCoalesce (total_price_obj.get "currencyCode") (Json.str "N/A")
    let firstSegment := jsIndex0 segments
    let firstLeg : Option Json :=
      match firstSegment with
      | none => none
      | some fs =>
        match fs.get "legs" with
        | none => none
        | some legs => jsIndex0 legs
    let summary :=
      match firstLeg, firstSegment with
      | some leg, some fs =>
        if leg.truthy then
          let carrierCode :=
            jsCoalesce ((leg.get "flightInfo").bind (fun fi =>
              fi.get "carrierInfo") |>.bind (fun ci =>
              ci.get "marketingCarrier")) (Json.str "N/A")
          let airlineName :=
            jsCoalesce ((carriers.lookup (jsToString carrierCode)).bind
              (fun c => c.get "name")) (Json.str "Unknown Airline")
          let depAirport :=
            jsCoalesce ((leg.get "departureAirport").bind
              (fun a => a.get "code")) (Json.str "???")
          let arrAirport :=
            jsCoalesce ((leg.get "arrivalAirport").bind
              (fun a => a.get "code")) (Json.str "???")
          let stops : Int :=
            (((fs.get "legs").bind jsLenOpt).getD 1 : Int) - 1
          "Operated by " ++ jsToString airlineName ++ ", flying from " ++
            jsToString depAirport ++ " to " ++ jsToString arrAirport ++
            " with " ++ toString stops ++ " stop(s)."
        else "N/A"
      | _, _ => "N/A"
    some
      { price := jsToFixed2 price
        currency := currency
        token := jsCoalesce (offer.get "token") (Json.str "N/A")
        tripType := jsCoalesce (offer.get "tripType") (Json.str "N/A")
        segments := segments
        summary := summary }
  | _, _ => none

/-- The offer loop of `parseFlightOffers`. -/
def parseOffersLoop (carriers : List (String × Json)) :
    List Json → Option (List FlightOffer)
  | [] => some []
  | o :: rest =>
    match parseOneOffer carriers o, parseOffersLoop carriers rest with
    | some f, some fs => some (f :: fs)
    | _, _ => none

/-- The function `parseFlightOffers` of flightClient.ts: `some []` on a
missing/falsy payload or an empty offer list, the parsed offers
otherwise (`none` models a thrown `TypeError` on ill-typed input). -/
def parseFlightOffers (response_data : Json) : Option (List FlightOffer) :=
  if response_data.truthy = false then some []
  else
    match response_data.get "data" with
    | none => some []
    | some flightData =>
      if flightData.truthy = false then some []
      else
        match arrOrEmpty (flightData.get "flightOffers") with
        | none => none
        | some offers =>
          match arrOrEmpty ((flightData.get "aggregation").bind
              (fun a => a.get "airlines")) with
          | none => none
          | some airlines =>
            if offers.length = 0 then some []
            else parseOffersLoop (buildCarriers airlines) offers

/-- The concrete provider price object of the claimed scenario:
`{units: 120, nanos: 500000000}` inside `priceBreakdown.totalRounded`. -/
def offer120 : Json :=
  Json.obj [("priceBreakdown",
    Json.obj [("totalRounded",
      Json.obj [("units", Json.num 120), ("nanos", Json.num 500000000)])])]

/-! ### Hotel-search pipeline (index.ts `searchHotels` + bookingClient.ts)

Each network call's outcome is an explicit `Option Json` argument:
`none` stands for a non-2xx status, a non-JSON body, or a network
failure — exactly the cases in which `_makeApiCall` returns `null`.
Thrown exceptions inside the pipeline (property access on `undefined`)
are modelled as `none` results, matching the surrounding
`try { ... } catch { return null; }`. -/

/-- The four `_makeApiCall` responses of one hotel-search run. -/
structure HotelNet where
  dest : Option Json
  filter : Option Json
  hotels : Option Json
  details : Option Json

/-- The dynamically-set fields of `BookingComAPI`
(`DEST_ID`, `DESTINATION`, `SEARCH_TYPE`). -/
structure BookingState where
  DEST_ID : Option Json
  DESTINATION : Option Json
  SEARCH_TYPE : Option Json

/-- `searchDestination`: takes the first result of the destination
query and captures `dest_id`, `label` and the upper-cased
`search_type`; returns `false` when the call failed or yielded zero
results.  The outer `none` models the `TypeError` of
`search_type?.toUpperCase()` on a non-string value. -/
def searchDestinationStep (resp : Option Json) :
    Option (Bool × BookingState) :=
  let failState : BookingState :=
    ⟨some (Json.str ""), some (Json.str ""), some (Json.str "")⟩
  match resp with
  | none => some (false, failState)
  | some cityData =>
    if ¬ cityData.truthy then some (false, failState)
    else
      match cityData.get "data" with
      | none => some (false, failState)
      | some dataV =>
        if ¬ dataV.truthy then some (false, failState)
        else if (jsLenOpt dataV).getD 0 = 0 then some (false, failState)
        else
          match jsIndex0 dataV with
          | none => some (false, failState)
          | some firstResult =>
            match firstResult.get "search_type" with
            | none =>
              some (true,
                ⟨firstResult.get "dest_id", firstResult.get "label",
                 some (Json.str "")⟩)
            | some Json.null =>
              some (true,
                ⟨firstResult.get "dest_id", firstResult.get "label",
                 some (Json.str "")⟩)
            | some (Json.str s) =>
              some (true,
                ⟨firstResult.get "dest_id", firstResult.get "label",
                 some (Json.str (jsUpper s))⟩)
            | some _ => none

/-- `getFilters`: diagnostics only; returns the filter payload when the
ids are set and the call produced truthy `data`, `null` otherwise.  The
caller discards the result. -/
def getFiltersStep (st : BookingState) (resp : Option Json) : Option Json :=
  if ¬ (jsTruthy st.DEST_ID && jsTruthy st.SEARCH_TYPE) then none
  else
    match resp with
    | none => none
    | some d => if jsTruthy (d.get "data") then some d else none

/-- The `searchHotels` method of `BookingComAPI`: `null` when the ids
are unset, the call failed, or the payload has no truthy `data`. -/
def searchHotelsStep (st : BookingState) (resp : Option Json) : Option Json :=
  if ¬ (jsTruthy st.DEST_ID && jsTruthy st.SEARCH_TYPE) then none
  else
    match resp with
    | none => none
    | some d => if jsTruthy (d.get "data") then some d else none

/-- The `getHotelDetails` method: `null` on call failure or missing
truthy `data`. -/
def getHotelDetailsStep (resp : Option Json) : Option Json :=
  match resp with
  | none => none
  | some d => if jsTruthy (d.get "data") then some d else none

/-- The normalized hotel record (interface `HotelResult`). -/
structure HotelResult where
  destination : Option Json
  hotel_name : Json
  hotel_description : Json
  price : Json
  currency : Json
  booking_hotel_id : Json
  hotel_photo_url : Json
  room_photo_url : Json

/-- First photo of a room with a truthy `url_max1280`, scanning the
photo list in order. -/
def firstPhotoUrl : List Json → Json
  | [] => Json.str "N/A"
  | p :: rest =>
    match p.get "url_max1280" with
    | some u => if u.truthy then u else firstPhotoUrl rest
    | none => firstPhotoUrl rest

/-- Best-effort room-photo extraction from the details response
(step 8 of `searchHotels`): any failure or missing field keeps the
default `"N/A"` (matching the inner `try`/`catch`). -/
def roomPhotoFromDetails (detailsResult : Option Json) : Json :=
  match detailsResult with
  | none => Json.str "N/A"
  | some d =>
    match d.get "data" with
    | none => Json.str "N/A"
    | some dataV =>
      if ¬ dataV.truthy then Json.str "N/A"
      else
        match dataV.get "rooms" with
        | none => Json.str "N/A"
        | some rooms =>
          if ¬ rooms.truthy then Json.str "N/A"
          else
            match rooms with
            | Json.obj ((_, firstRoomData) :: _) =>
              (match jsCoalesce (firstRoomData.get "photos") (Json.arr []) with
               | Json.arr photos => firstPhotoUrl photos
               | _ => Json.str "N/A")
            | _ => Json.str "N/A"

set_option linter.unusedVariables false in
/-- Steps 1-7 of the `searchHotels` pipeline of index.ts: resolve the
destination, invoke the diagnostic filter call (result discarded),
run the hotel search, and populate the result record from the first
hotel; the room photo stays at its default (the `city` default written
into `resultData.destination` is always overwritten before the record
is returned).  `none` models both the explicit `return null` paths and
exceptions reaching the outer `catch`. -/
def searchHotelsCore (city : String) (net : HotelNet) : Option HotelResult :=
  match searchDestinationStep net.dest with
  | none => none
  | some (false, _) => none
  | some (true, st) =>
    let _ := getFiltersStep st net.filter
    match searchHotelsStep st net.hotels with
    | none => none
    | some hotelSearchResult =>
      match hotelSearchResult.get "data" with
      | none => none
      | some dataV =>
        if ¬ dataV.truthy then none
        else
          match dataV.get "hotels" with
          | none => none
          | some hotelsV =>
            if ¬ hotelsV.truthy then none
            else if jsLenOpt hotelsV = some 0 then none
            else
              match jsIndex0 hotelsV with
              | none => none
              | some firstHotel =>
                match firstHotel.get "hotel_id" with
                | none => none
                | some Json.null => none
                | some hotelId =>
                  let grossPrice :=
                    ((firstHotel.get "property").bind (fun p =>
                      p.get "priceBreakdown")).bind (fun pb =>
                      pb.get "grossPrice")
                  let priceCur :=
                    match grossPrice with
                    | some gp =>
                      if gp.truthy then
                        (jsCoalesce (gp.get "value") (Json.num 0),
                         jsCoalesce (gp.get "currency") (Json.str "N/A"))
                      else (Json.num 0, Json.str "N/A")
                    | none => (Json.num 0, Json.str "N/A")
                  some
                    { destination := st.DESTINATION
                      hotel_name :=
                        jsCoalesce ((firstHotel.get "property").bind
                          (fun p => p.get "name")) (Json.str "N/A")
                      hotel_description :=
                        jsCoalesce (firstHotel.get "accessibilityLabel")
                          (Json.str "N/A")
                      price := priceCur.1
                      currency := priceCur.2
                      booking_hotel_id := hotelId
                      hotel_photo_url :=
                        jsCoalesce ((firstHotel.get "property").bind
                          (fun p => p.get "photoUrls")) (Json.arr [])
                      room_photo_url := Json.str "N/A" }

/-- The whole `searchHotels` function of index.ts: missing credentials
return `null`; otherwise the core pipeline runs, and on success the
best-effort details step may replace the room photo. -/
def searchHotelsPipeline (hasCreds : Bool) (city : String)
    (net : HotelNet) : Option HotelResult :=
  if ¬ hasCreds then none
  else
    match searchHotelsCore city net with
    | none => none
    | some r =>
      some { r with
        room_photo_url := roomPhotoFromDetails (getHotelDetailsStep net.details) }

/-- A network trace in which the destination and hotel-search calls
succeed but the diagnostic filter call and the details call fail at
the HTTP level. -/
def netFilterFail : HotelNet :=
  let destResp : Json :=
    Json.obj [("data", Json.arr
      [Json.obj [("dest_id", Json.str "20088325"),
                 ("label", Json.str "Paris, France"),
                 ("search_type", Json.str "city")]])]
  let property : Json :=
    Json.obj [("name", Json.str "Hotel Lumiere"),
              ("priceBreakdown", Json.obj [("grossPrice", Json.obj
                [("value", Json.num 500),
                 ("currency", Json.str "EUR")])]),
              ("photoUrls", Json.arr [Json.str "https://p.example/1.jpg"])]
  let firstHotel : Json :=
    Json.obj [("hotel_id", Json.num 123),
              ("accessibilityLabel", Json.str "A nice hotel"),
              ("property", property)]
  let hotelsResp : Json :=
    Json.obj [("data", Json.obj [("hotels", Json.arr [firstHotel])])]
  { dest := some destResp
    filter := none
    hotels := some hotelsResp
    details := none }

/-! ### Heuristic keyword extraction (test-booking.ts, Lovable serve
handler, lines 534-553)

Models
```
const lowerResponse = aiResponse.toLowerCase();
const updates: any = {};
if (!conversation?.destination && lowerResponse.includes("destination")) {
  const lastUserMsg = messages.filter((m) => m.role === "user").pop();
  if (lastUserMsg) {
    updates.destination = lastUserMsg.content;
  }
}
```
-/

/-- A chat message of the request body. -/
structure ChatMessage where
  role : String
  content : String

/-- `messages.filter(m => m.role === "user").pop()`. -/
def lastUserMessage (messages : List ChatMessage) : Option ChatMessage :=
  (messages.filter (fun m => m.role == "user")).getLast?

/-- The `updates` object produced by the heuristic extraction of the
Lovable serve handler. -/
def heuristicUpdates (convDestination : Option Json) (aiResponse : String)
    (messages : List ChatMessage) : List (String × Json) :=
  if ¬ jsTruthy convDestination ∧
      hasSub "destination".data (jsLower aiResponse.data) then
    match lastUserMessage messages with
    | some m => [("destination", Json.str m.content)]
    | none => []
  else []

/-- The user message of the claimed heuristic-extraction scenario. -/
def londonMsg : String :=
  "I\x27m from London and have $3000 and want to relax at beaches"

/-! ### Recommendation enricher
(index.ts `parseRecommendationsWithLinks`, lines 20-55)

The place pattern
```
/(?:Visit|Dine at|...|Wander in)\s+([^-\n.;,]*?)(?:\s*[-:.;,]|$|\n)/gi
```
is embedded directly: at each position the ordered alternation is tried
case-insensitively, `\s+` is matched greedily, and the lazy capture
extends one character at a time, preferring the terminator
alternatives in order (`\s*[-:.;,]`, then end of input, then `\n`).
Because the capture class excludes exactly `-`, newline, `.`, `;` and
`,` — all of which the first or third terminator accepts — the
tail of the pattern never fails, so no backtracking into `\s+` or the
alternation (beyond a failed `\s+`) can occur. -/

/-- The ordered verb alternation of the place pattern, exactly as in
the source. -/
def placeVerbs : List String :=
  ["Visit", "Dine at", "Explore", "Try", "Experience", "Enjoy", "Go to",
   "See", "Check out", "Discover", "Browse", "Sample", "Hike", "Trek",
   "Climb", "Tour", "Take", "Do", "Participate in", "Attend", "Join",
   "Relax at", "Swim at", "Kayak in", "Bike through", "Walk to",
   "Drive to", "Sail on", "Surf at", "Ski on", "Climb", "Watch",
   "Taste", "Drink", "Eat at", "Have", "Book", "Reserve", "Book a tour",
   "Take a tour", "Go on", "View", "Visit the", "Go for", "Catch",
   "Watch the", "Ride", "Take a", "Have a", "Enjoy the", "Admire",
   "Appreciate", "See the", "Walk around", "Stroll through", "Wander in"]

/-- Case-insensitive prefix test (the `i` flag). -/
def ciLeadsWith : List Char → List Char → Bool
  | [], _ => true
  | _ :: _, [] => false
  | n :: ns, h :: hs => (n.toLower == h.toLower) && ciLeadsWith ns hs

/-- The terminator character class `[-:.;,]`. -/
def termClassChar (c : Char) : Bool :=
  c == '-' || c == ':' || c == '.' || c == ';' || c == ','

/-- Match the first terminator alternative `\s*[-:.;,]`, returning the
input after it. -/
def termWsClass (cs : List Char) : Option (List Char) :=
  let ws := cs.takeWhile jsIsWs
  match cs.drop ws.length with
  | c :: rest => if termClassChar c then some rest else none
  | [] => none

/-- The lazy capture `([^-\n.;,]*?)` followed by the terminator
`(?:\s*[-:.;,]|$|\n)`: returns the captured text and the input after
the terminator.  At each position the terminator alternatives are
tried first (lazy matching); a character refused by the capture class
is always accepted by a terminator, so the match cannot fail. -/
def lazyCapture : List Char → (List Char × List Char)
  | [] => ([], [])
  | c :: rest =>
    match termWsClass (c :: rest) with
    | some rem => ([], rem)
    | none =>
      if c == '\n' then ([], rest)
      else
        let (cap, rem) := lazyCapture rest
        (c :: cap, rem)

/-- Try the verb alternation at the current position: the first verb
(in pattern order) that matches case-insensitively and is followed by
at least one whitespace character (`\s+`); a verb whose `\s+` fails
backtracks to the next alternative. -/
def tryVerbs : List String → List Char → Option Nat
  | [], _ => none
  | v :: vs, cs =>
    if ciLeadsWith v.data cs then
      if ((cs.drop v.data.length).takeWhile jsIsWs).isEmpty then
        tryVerbs vs cs
      else some v.data.length
    else tryVerbs vs cs

/-- One match of the place pattern: the full matched text `match[0]`,
the captured place-name span `match[1]`, and the input after the
match. -/
structure JsMatch where
  full : List Char
  capture : List Char
  rest : List Char
deriving DecidableEq

/-- Attempt the place pattern at the current position. -/
def tryMatchAt (cs : List Char) : Option JsMatch :=
  match tryVerbs placeVerbs cs with
  | none => none
  | some verbLen =>
    let after := cs.drop verbLen
    let ws := after.takeWhile jsIsWs
    let (cap, rem) := lazyCapture (after.drop ws.length)
    some { full := cs.take (cs.length - rem.length), capture := cap, rest := rem }

/-- All matches of `matchAll`, left to right, continuing after each
match (each match consumes at least three characters, so the input
length is always enough fuel). -/
def scanMatchesAux : Nat → List Char → List JsMatch
  | 0, _ => []
  | Nat.succ _, [] => []
  | Nat.succ fuel, c :: rest =>
    match tryMatchAt (c :: rest) with
    | some m => m :: scanMatchesAux fuel m.rest
    | none => scanMatchesAux fuel rest

/-- `response.matchAll(placePattern)` as a list. -/
def scanMatches (cs : List Char) : List JsMatch := scanMatchesAux cs.length cs

/-- Characters that `encodeURIComponent` leaves unescaped. -/
def isUnreservedUri (c : Char) : Bool :=
  ('A' ≤ c && c ≤ 'Z') || ('a' ≤ c && c ≤ 'z') || ('0' ≤ c && c ≤ '9') ||
  c == '-' || c == '_' || c == '.' || c == '!' || c == '~' || c == '*' ||
  c.val == 39 || c == '(' || c == ')'

/-- Uppercase hexadecimal digit. -/
def hexUpperChar (n : Nat) : Char :=
  if n < 10 then Char.ofNat ('0'.toNat + n) else Char.ofNat ('A'.toNat + n - 10)

/-- UTF-8 bytes of a character. -/
def utf8Bytes (c : Char) : List Nat :=
  let v := c.toNat
  if v < 0x80 then [v]
  else if v < 0x800 then [0xC0 + v / 64, 0x80 + v % 64]
  else if v < 0x10000 then
    [0xE0 + v / 4096, 0x80 + (v / 64) % 64, 0x80 + v % 64]
  else
    [0xF0 + v / 262144, 0x80 + (v / 4096) % 64, 0x80 + (v / 64) % 64,
     0x80 + v % 64]

/-- Percent-encoding of one character under `encodeURIComponent`. -/
def percentEncodeChar (c : Char) : List Char :=
  if isUnreservedUri c then [c]
  else (utf8Bytes c).foldr
    (fun b acc => '%' :: hexUpperChar (b / 16) :: hexUpperChar (b % 16) :: acc) []

/-- `encodeURIComponent` on a character list. -/
def encodeUriComponent (cs : List Char) : List Char :=
  cs.foldr (fun c acc => percentEncodeChar c ++ acc) []

/-- `createGoogleMapsUrl`: the map-search URL built from
`placeName + " " + destination`, URL-encoded. -/
def createGoogleMapsUrl (placeName destination : List Char) : List Char :=
  "https://www.google.com/maps/search/".data ++
    encodeUriComponent (placeName ++ " ".data ++ destination)

/-- The place-name normalization
`.replace(/\s+/g, " ").split(" - ")[0].split(" (")[0].trim()`. -/
def normalizePlaceName (cs : List Char) : List Char :=
  jsTrim (splitHead " (".data (splitHead " - ".data (collapseWs cs)))

/-- Record of one executed append (observer data: the link's place
name, its URL, and the text at the moment of the append). -/
structure AppendRec where
  name : List Char
  url : List Char
  textBefore : List Char
deriving DecidableEq

/-- The mutable state of the enrichment loop: `enhancedResponse`, the
`processedPlaces` set, and the (observer-only) list of executed
appends. -/
structure EnrichState where
  text : List Char
  processed : List (List Char)
  appended : List AppendRec

/-- One iteration of the `for (const match of matches)` loop: trim the
capture, apply the length guard and the dedup-set check on the raw
trimmed name, normalize, re-check the length, record the normalized
lowercase name in the set, and append the link after the matched span
unless the exact URL is already present in the text. -/
def enrichStep (destination : List Char) (st : EnrichState) (m : JsMatch) :
    EnrichState :=
  let placeName0 := jsTrim m.capture
  if placeName0.length > 2 ∧ ¬ st.processed.contains (jsLower placeName0) then
    let placeName := normalizePlaceName placeName0
    if placeName.length > 2 then
      let processed' := st.processed ++ [jsLower placeName]
      let mapsUrl := createGoogleMapsUrl placeName destination
      if ¬ hasSub mapsUrl st.text then
        let enhanced := m.full ++ "\n🗺️ [".data ++ placeName ++
          "](".data ++ mapsUrl ++ ")".data
        { text := replaceFirst st.text m.full enhanced
          processed := processed'
          appended := st.appended ++ [⟨placeName, mapsUrl, st.text⟩] }
      else { st with processed := processed' }
    else st
  else st

/-- The whole enrichment loop over the matches of the original
response. -/
def enrichRun (response destination : List Char) : EnrichState :=
  (scanMatches response).foldl (enrichStep destination) ⟨response, [], []⟩

/-- `parseRecommendationsWithLinks` of index.ts. -/
def parseRecommendationsWithLinks (response destination : String) : String :=
  String.mk (enrichRun response.data destination.data).text

/-- The names of the links appended during one enrichment call, in
order. -/
def appendedNames (response destination : String) : List (List Char) :=
  (enrichRun response.data destination.data).appended.map (fun a => a.name)

/-- A match is statically blocked on text `text`: its trimmed capture
or normalized name is shorter than 3 characters, or its map URL is
already present in `text`. -/
def matchBlocked (text destination : List Char) (m : JsMatch) : Bool :=
  let p0 := jsTrim m.capture
  if p0.length ≤ 2 then true
  else
    let pn := normalizePlaceName p0
    if pn.length ≤ 2 then true
    else hasSub (createGoogleMapsUrl pn destination) text

/-- The enrichment of `"Visit Louvre."` for destination `"Paris"`
(the spec's Louvre scenario output). -/
def louvreEnriched : String :=
  "Visit Louvre.\n🗺️ [Louvre](https://www.google.com/maps/search/Louvre%20Paris)"

/-! ## Theorems -/

theorem lookup_objInsert (fields : List (String × Json)) (key : String)
    (v : Json) (k : String) :
    (objInsert fields key v).lookup k =
      if k = key then some v else fields.lookup k := by
  induction fields with
  | nil =>
    by_cases h : k = key
    · simp [objInsert, List.lookup, h]
    · have hb : (k == key) = false := by simp [h]
      simp [objInsert, List.lookup, h, hb]
  | cons hd tl ih =>
    obtain ⟨k1, v1⟩ := hd
    by_cases h1 : k1 = key
    · subst h1
      by_cases h2 : k = k1
      · subst h2
        simp [objInsert, List.lookup]
      · have hb : (k == k1) = false := by simp [h2]
        simp [objInsert, List.lookup, h2, hb]
    · have hb1 : (k1 == key) = false := by simp [h1]
      by_cases h2 : k = k1
      · subst h2
        have hk : ¬ k = key := fun h => h1 (by rw [h])
        simp [objInsert, List.lookup, hb1, hk]
      · have hb2 : (k == k1) = false := by simp [h2]
        simp [objInsert, List.lookup, hb1, hb2, ih]

theorem lookup_setIfTruthy_eq (fields : List (String × Json))
    (key : String) (v : Option Json) :
    (setIfTruthy fields key v).lookup key = truthyMerge v (fields.lookup key) := by
  cases v with
  | none => simp [setIfTruthy, truthyMerge]
  | some x =>
    by_cases h : x.truthy <;>
      simp [setIfTruthy, truthyMerge, h, lookup_objInsert]

theorem lookup_setIfTruthy_ne (fields : List (String × Json))
    (key : String) (v : Option Json) (k : String) (h : k ≠ key) :
    (setIfTruthy fields key v).lookup k = fields.lookup k := by
  cases v with
  | none => simp [setIfTruthy]
  | some x =>
    by_cases ht : x.truthy <;>
      simp [setIfTruthy, ht, lookup_objInsert, h]

theorem lookup_setIfPresent_eq (fields : List (String × Json))
    (key : String) (v : Option Json) :
    (setIfPresent fields key v).lookup key =
      (match v with
       | some x => some x
       | none => fields.lookup key) := by
  cases v with
  | none => simp [setIfPresent]
  | some x => simp [setIfPresent, lookup_objInsert]

theorem lookup_setIfPresent_ne (fields : List (String × Json))
    (key : String) (v : Option Json) (k : String) (h : k ≠ key) :
    (setIfPresent fields key v).lookup k = fields.lookup k := by
  cases v with
  | none => simp [setIfPresent]
  | some x => simp [setIfPresent, lookup_objInsert, h]

/-- Claim C1, counterexample.  On the reply
`"Hello!|||EXTRACT|||\x7boops|||END|||"` a delimited block is located and
its payload `{oops` fails to JSON-decode; the claim requires the block
to be stripped from the visible text, but the code returns the visible
text unchanged with the malformed block still present (the `replace`
call sits after `JSON.parse` inside the `try`). -/
theorem extract_decode_failure_keeps_block :
    findExtractBlock "Hello!|||EXTRACT|||\x7boops|||END|||".data =
      some ("Hello!".data, "\x7boops".data, []) ∧
    jsonParse (jsTrim "\x7boops".data) = none ∧
    extractFromReply "Hello!|||EXTRACT|||\x7boops|||END|||" =
      ("Hello!|||EXTRACT|||\x7boops|||END|||", Json.obj []) ∧
    hasSub extractOpenDelim
      (extractFromReply "Hello!|||EXTRACT|||\x7boops|||END|||").1.data = true :=
  ⟨rfl, rfl, rfl, rfl⟩

/-- Claim C1, amended.  If the model reply contains no well-formed
`|||EXTRACT|||...|||END|||` block, the extraction step returns the
reply unchanged together with an empty update; and if a block is
located but its payload fails to JSON-decode, the extraction step
returns an empty update and also leaves the visible text unchanged
(the malformed block is not stripped: stripping happens only when the
payload decodes successfully). -/
theorem extract_no_block_or_decode_failure (reply : String) :
    (findExtractBlock reply.data = none →
      extractFromReply reply = (reply, Json.obj [])) ∧
    (∀ before payload after,
      findExtractBlock reply.data = some (before, payload, after) →
      jsonParse (jsTrim payload) = none →
      extractFromReply reply = (reply, Json.obj [])) := by
  constructor
  · intro h
    simp [extractFromReply, h]
  · intro before payload after h hp
    simp [extractFromReply, h, hp]

/-- Witness for `extract_no_block_or_decode_failure`, at a reply with
no block and a reply with an undecodable payload. -/
theorem extract_no_block_or_decode_failure_witness :
    extractFromReply "plain reply" = ("plain reply", Json.obj []) ∧
    extractFromReply "Hi|||EXTRACT|||\x7bbad|||END|||x" =
      ("Hi|||EXTRACT|||\x7bbad|||END|||x", Json.obj []) :=
  ⟨(extract_no_block_or_decode_failure "plain reply").1 rfl,
   (extract_no_block_or_decode_failure "Hi|||EXTRACT|||\x7bbad|||END|||x").2
     "Hi".data "\x7bbad".data "x".data rfl rfl⟩

/-- Claim C9, counterexample.  A payment-required (402) response from
the provider is mapped by the OpenAI serve handler of index.ts to the
generic 500 failure (`throw` caught by the surrounding handler), not to
a distinct named outcome. -/
theorem openai_payment_required_is_generic_500 :
    openAiFailureResponse 402 = (500, "OpenAI API error: 402") ∧
    (openAiFailureResponse 402).1 ≠ 402 := by
  exact ⟨rfl, by decide⟩

/-- Claim C9, amended.  Both serve handlers surface the provider's
rate-limit response (429) as a distinct outcome with its own status
code and message; the Lovable handler additionally surfaces
payment-required (402) distinctly and the OpenAI handler surfaces
invalid-API-key (401) distinctly; every other non-2xx provider status
(in particular payment-required at the OpenAI handler) becomes the
generic 500 failure. -/
theorem model_error_mapping (status : Nat) :
    openAiFailureResponse 429 =
      (429, "Rate limit exceeded. Please try again later.") ∧
    openAiFailureResponse 401 =
      (401, "Invalid API key. Please check your OpenAI configuration.") ∧
    lovableFailureResponse 429 =
      (429, "Rate limit exceeded. Please try again later.") ∧
    lovableFailureResponse 402 =
      (402, "Payment required. Please add credits to continue.") ∧
    (status ≠ 429 → status ≠ 401 →
      openAiFailureResponse status = (500, "OpenAI API error: " ++ toString status)) ∧
    (status ≠ 429 → status ≠ 402 →
      lovableFailureResponse status = (500, "AI API error: " ++ toString status)) := by
  refine ⟨rfl, rfl, rfl, rfl, ?_, ?_⟩
  · intro h1 h2
    simp [openAiFailureResponse, h1, h2]
  · intro h1 h2
    simp [lovableFailureResponse, h1, h2]

/-- Witness for `model_error_mapping` at provider status 503. -/
theorem model_error_mapping_witness :
    openAiFailureResponse 503 = (500, "OpenAI API error: 503") ∧
    lovableFailureResponse 503 = (500, "AI API error: 503") :=
  ⟨(model_error_mapping 503).2.2.2.2.1 (by decide) (by decide),
   (model_error_mapping 503).2.2.2.2.2 (by decide) (by decide)⟩

/-- Claim C10.  The hotel client's request-URL builder produces
`"https:///"` (three slashes) followed by the API host and endpoint,
the flight client's builder produces `"https://"` (two slashes)
followed by the same, and consequently the two builders disagree on
every input. -/
theorem url_builders_differ (apiHost endpoint : String) :
    bookingMakeApiCallUrl apiHost endpoint = "https:///" ++ apiHost ++ endpoint ∧
    flightsMakeApiCallUrl apiHost endpoint = "https://" ++ apiHost ++ endpoint ∧
    bookingMakeApiCallUrl apiHost endpoint ≠ flightsMakeApiCallUrl apiHost endpoint := by
  refine ⟨rfl, rfl, ?_⟩
  intro h
  have hlen := congrArg String.length h
  rw [bookingMakeApiCallUrl, flightsMakeApiCallUrl] at hlen
  simp only [String.length_append] at hlen
  have h9 : "https:///".length = 9 := rfl
  have h8 : "https://".length = 8 := rfl
  rw [h9, h8] at hlen
  omega

/-- Claim C2, counterexample.  The decoded extraction object
`{"confirmed": null}` (a legal output of the instructed format, whose
schema allows `"confirmed": "boolean | null"`) unsets a previously
known confirmation: the key is present with the null value and the
code's `extractedData.confirmed !== undefined` guard lets it overwrite
the stored `true`.  This contradicts the claim that a present key
overwrites only when its decoded value is non-null/non-empty. -/
theorem merge_confirmed_null_unsets :
    jsonParse "\x7b\"confirmed\": null\x7d".data =
      some (Json.obj [("confirmed", Json.null)]) ∧
    (applyExtracted
        ⟨none, none, none, [("confirmed", Json.bool true)]⟩
        (Json.obj [("confirmed", Json.null)])).preferences =
      [("confirmed", Json.null)] ∧
    jsTruthy ((⟨none, none, none, [("confirmed", Json.bool true)]⟩ :
      Conversation).preferences.lookup "confirmed") = true ∧
    jsTruthy ((applyExtracted
        ⟨none, none, none, [("confirmed", Json.bool true)]⟩
        (Json.obj [("confirmed", Json.null)])).preferences.lookup
        "confirmed") = false :=
  ⟨rfl, rfl, rfl, rfl⟩

/-- Claim C2, amended.  Merging the decoded extraction object into the
record overwrites the six truthiness-guarded preference fields and the
top-level destination and budget only when the decoded value is truthy
(non-null, non-empty, non-zero; the budget is stringified), leaves
absent keys and every field not named in the decoded object unchanged
— but the `confirmed` field is overwritten whenever the key is
present, even with a null value, so a null `confirmed` can unset a
previously known confirmation. -/
theorem merge_behavior (c : Conversation) (e : Json) :
    (applyExtracted c e).preferences.lookup "origin"
      = truthyMerge (e.get "origin") (c.preferences.lookup "origin") ∧
    (applyExtracted c e).preferences.lookup "weather_preference"
      = truthyMerge (e.get "weather_preference")
          (c.preferences.lookup "weather_preference") ∧
    (applyExtracted c e).preferences.lookup "activities"
      = truthyMerge (e.get "activities") (c.preferences.lookup "activities") ∧
    (applyExtracted c e).preferences.lookup "budget_allocation"
      = truthyMerge (e.get "budget_allocation")
          (c.preferences.lookup "budget_allocation") ∧
    (applyExtracted c e).preferences.lookup "dates"
      = truthyMerge (e.get "dates") (c.preferences.lookup "dates") ∧
    (applyExtracted c e).preferences.lookup "date_flexibility"
      = truthyMerge (e.get "date_flexibility")
          (c.preferences.lookup "date_flexibility") ∧
    (applyExtracted c e).preferences.lookup "confirmed"
      = (match e.get "confirmed" with
         | some v => some v
         | none => c.preferences.lookup "confirmed") ∧
    (applyExtracted c e).destination
      = (if jsTruthy (e.get "destination") then e.get "destination"
         else c.destination) ∧
    (applyExtracted c e).budget
      = (match e.get "budget" with
         | some v => if v.truthy then some (Json.str (jsToString v))
                     else c.budget
         | none => c.budget) ∧
    (applyExtracted c e).start_date = c.start_date ∧
    (∀ k, k ≠ "origin" → k ≠ "weather_preference" → k ≠ "activities" →
      k ≠ "budget_allocation" → k ≠ "dates" → k ≠ "date_flexibility" →
      k ≠ "confirmed" →
      (applyExtracted c e).preferences.lookup k = c.preferences.lookup k) := by
  refine ⟨?_, ?_, ?_, ?_, ?_, ?_, ?_, rfl, rfl, rfl, ?_⟩
  · simp only [applyExtracted]
    rw [lookup_setIfPresent_ne _ _ _ _ (by decide),
      lookup_setIfTruthy_ne _ _ _ _ (by decide),
      lookup_setIfTruthy_ne _ _ _ _ (by decide),
      lookup_setIfTruthy_ne _ _ _ _ (by decide),
      lookup_setIfTruthy_ne _ _ _ _ (by decide),
      lookup_setIfTruthy_ne _ _ _ _ (by decide),
      lookup_setIfTruthy_eq]
  · simp only [applyExtracted]
    rw [lookup_setIfPresent_ne _ _ _ _ (by decide),
      lookup_setIfTruthy_ne _ _ _ _ (by decide),
      lookup_setIfTruthy_ne _ _ _ _ (by decide),
      lookup_setIfTruthy_ne _ _ _ _ (by decide),
      lookup_setIfTruthy_ne _ _ _ _ (by decide),
      lookup_setIfTruthy_eq,
      lookup_setIfTruthy_ne _ _ _ _ (by decide)]
  · simp only [applyExtracted]
    rw [lookup_setIfPresent_ne _ _ _ _ (by decide),
      lookup_setIfTruthy_ne _ _ _ _ (by decide),
      lookup_setIfTruthy_ne _ _ _ _ (by decide),
      lookup_setIfTruthy_ne _ _ _ _ (by decide),
      lookup_setIfTruthy_eq,
      lookup_setIfTruthy_ne _ _ _ _ (by decide),
      lookup_setIfTruthy_ne _ _ _ _ (by decide)]
  · simp only [applyExtracted]
    rw [lookup_setIfPresent_ne _ _ _ _ (by decide),
      lookup_setIfTruthy_ne _ _ _ _ (by decide),
      lookup_setIfTruthy_ne _ _ _ _ (by decide),
      lookup_setIfTruthy_eq,
      lookup_setIfTruthy_ne _ _ _ _ (by decide),
      lookup_setIfTruthy_ne _ _ _ _ (by decide),
      lookup_setIfTruthy_ne _ _ _ _ (by decide)]
  · simp only [applyExtracted]
    rw [lookup_setIfPresent_ne _ _ _ _ (by decide),
      lookup_setIfTruthy_ne _ _ _ _ (by decide),
      lookup_setIfTruthy_eq,
      lookup_setIfTruthy_ne _ _ _ _ (by decide),
      lookup_setIfTruthy_ne _ _ _ _ (by decide),
      lookup_setIfTruthy_ne _ _ _ _ (by decide),
      lookup_setIfTruthy_ne _ _ _ _ (by decide)]
  · simp only [applyExtracted]
    rw [lookup_setIfPresent_ne _ _ _ _ (by decide),
      lookup_setIfTruthy_eq,
      lookup_setIfTruthy_ne _ _ _ _ (by decide),
      lookup_setIfTruthy_ne _ _ _ _ (by decide),
      lookup_setIfTruthy_ne _ _ _ _ (by decide),
      lookup_setIfTruthy_ne _ _ _ _ (by decide),
      lookup_setIfTruthy_ne _ _ _ _ (by decide)]
  · simp only [applyExtracted]
    rw [lookup_setIfPresent_eq,
      lookup_setIfTruthy_ne _ _ _ _ (by decide),
      lookup_setIfTruthy_ne _ _ _ _ (by decide),
      lookup_setIfTruthy_ne _ _ _ _ (by decide),
      lookup_setIfTruthy_ne _ _ _ _ (by decide),
      lookup_setIfTruthy_ne _ _ _ _ (by decide),
      lookup_setIfTruthy_ne _ _ _ _ (by decide)]
  · intro k h1 h2 h3 h4 h5 h6 h7
    simp only [applyExtracted]
    rw [lookup_setIfPresent_ne _ _ _ _ h7,
      lookup_setIfTruthy_ne _ _ _ _ h6,
      lookup_setIfTruthy_ne _ _ _ _ h5,
      lookup_setIfTruthy_ne _ _ _ _ h4,
      lookup_setIfTruthy_ne _ _ _ _ h3,
      lookup_setIfTruthy_ne _ _ _ _ h2,
      lookup_setIfTruthy_ne _ _ _ _ h1]

/-- Witness for `merge_behavior`: a field not named in the decoded
object keeps its prior value. -/
theorem merge_behavior_witness :
    (applyExtracted
        ⟨none, none, none, [("custom_note", Json.str "keep")]⟩
        (Json.obj [("origin", Json.str "Rome")])).preferences.lookup
        "custom_note" =
      (⟨none, none, none, [("custom_note", Json.str "keep")]⟩ :
        Conversation).preferences.lookup "custom_note" :=
  (merge_behavior ⟨none, none, none, [("custom_note", Json.str "keep")]⟩
    (Json.obj [("origin", Json.str "Rome")])).2.2.2.2.2.2.2.2.2.2
    "custom_note" (by decide) (by decide) (by decide) (by decide)
    (by decide) (by decide) (by decide)

/-- Claim C3.  The stage-selection chain always selects the first
unmet requirement of the ordered checklist (origin, destination,
weather preference, activities, budget, budget allocation, dates,
flexibility, confirmation); in particular, for a record with exactly
one unfilled checklist field it selects the stage corresponding to
that field, and when every field is set it selects the
Ready/recommendation stage (STAGE 10). -/
theorem selectStage_first_unmet (c : Conversation) :
    selectStage c = specFirstUnmet (stageChecklist c) stageOrder ∧
    (∀ i : Fin 9, stageChecklist c = onlyMissing i →
      selectStage c = stageOrder.getD i.val Stage.ready) ∧
    ((∀ b ∈ stageChecklist c, b = true) → selectStage c = Stage.ready) := by
  have main : selectStage c = specFirstUnmet (stageChecklist c) stageOrder := by
    simp only [selectStage, stageChecklist, stageOrder, specFirstUnmet, ite_not]
  refine ⟨main, ?_, ?_⟩
  · intro i h
    rw [main, h]
    fin_cases i <;> rfl
  · intro h
    rw [main]
    have h1 : hasOriginFlag c = true := h _ (by simp [stageChecklist])
    have h2 : hasDestinationFlag c = true := h _ (by simp [stageChecklist])
    have h3 : hasWeatherFlag c = true := h _ (by simp [stageChecklist])
    have h4 : hasActivitiesFlag c = true := h _ (by simp [stageChecklist])
    have h5 : hasBudgetFlag c = true := h _ (by simp [stageChecklist])
    have h6 : hasBudgetAllocationFlag c = true := h _ (by simp [stageChecklist])
    have h7 : hasDatesFlag c = true := h _ (by simp [stageChecklist])
    have h8 : hasFlexibilityFlag c = true := h _ (by simp [stageChecklist])
    have h9 : hasConfirmedFlag c = true := h _ (by simp [stageChecklist])
    simp [stageChecklist, stageOrder, specFirstUnmet,
      h1, h2, h3, h4, h5, h6, h7, h8, h9]

/-- Witness for `selectStage_first_unmet`: with only the budget
missing the budget stage is selected, and with every field filled the
Ready stage is selected. -/
theorem selectStage_first_unmet_witness :
    selectStage cBudgetMissing = Stage.needBudget ∧
    selectStage cAllFilled = Stage.ready :=
  ⟨(selectStage_first_unmet cBudgetMissing).2.1 ⟨4, by omega⟩ (by decide),
   (selectStage_first_unmet cAllFilled).2.2 (by decide)⟩

/-- Claim C8.  For every flight offer whose `units` and `nanos` fields
(under `priceBreakdown.totalRounded`) are numeric or absent (absent or
null counting as 0), the parsed price equals `units + nanos / 1e9`
rounded to 2 decimal places, and the currency is the provider's
`currencyCode` with the placeholder `"N/A"` when absent. -/
theorem flight_price_reconstitution (carriers : List (String × Json))
    (offer : Json) (units nanos : Rat)
    (hu : numOrZero ((jsCoalesce
        ((jsCoalesce (offer.get "priceBreakdown") (Json.obj [])).get
          "totalRounded") (Json.obj [])).get "units") = some units)
    (hn : numOrZero ((jsCoalesce
        ((jsCoalesce (offer.get "priceBreakdown") (Json.obj [])).get
          "totalRounded") (Json.obj [])).get "nanos") = some nanos) :
    ∃ f, parseOneOffer carriers offer = some f ∧
      f.price = jsToFixed2 (units + nanos / 1000000000) ∧
      f.currency = jsCoalesce ((jsCoalesce
        ((jsCoalesce (offer.get "priceBreakdown") (Json.obj [])).get
          "totalRounded") (Json.obj [])).get "currencyCode")
        (Json.str "N/A") := by
  simp only [parseOneOffer]
  rw [hu, hn]
  exact ⟨_, rfl, rfl, rfl⟩

/-- Witness for `flight_price_reconstitution`: the provider pair
`{units: 120, nanos: 500000000}` parses to the price 120.50, and an
offer with no price fields at all parses to price 0 with the currency
placeholder. -/
theorem flight_price_reconstitution_witness :
    (∃ f, parseOneOffer [] offer120 = some f ∧ f.price = 241 / 2 ∧
      f.currency = Json.str "N/A") ∧
    (∃ g, parseOneOffer [] (Json.obj []) = some g ∧ g.price = 0 ∧
      g.currency = Json.str "N/A") := by
  constructor
  · obtain ⟨f, hf, hp, hc⟩ :=
      flight_price_reconstitution [] offer120 120 500000000 rfl rfl
    refine ⟨f, hf, ?_, ?_⟩
    · rw [hp]; norm_num [jsToFixed2]
    · rw [hc]; rfl
  · obtain ⟨g, hg, hp, hc⟩ :=
      flight_price_reconstitution [] (Json.obj []) 0 0 rfl rfl
    refine ⟨g, hg, ?_, ?_⟩
    · rw [hp]; norm_num [jsToFixed2]
    · rw [hc]; rfl

theorem Json.truthy_of_get {v : Json} {k : String} {x : Json}
    (h : v.get k = some x) : v.truthy = true := by
  cases v <;> simp [Json.get, Json.truthy] at h ⊢

/-- Claim C4, counterexample.  On a trace in which the destination and
hotel-search calls succeed but the (optional) filter call and details
call fail at the HTTP level, the pipeline still returns a hotel
result: an HTTP failure of those steps does not produce the claimed
null outcome. -/
theorem hotel_filter_failure_still_returns_result :
    netFilterFail.filter = none ∧ netFilterFail.details = none ∧
    (searchHotelsPipeline true "Paris" netFilterFail).isSome = true :=
  ⟨rfl, rfl, rfl⟩

/-- Claim C4, amended.  The pipeline never throws (it is a total
function into an option); missing credentials, a failed or zero-result
destination resolve, a failed hotel-search call and an empty hotel
list all yield the null outcome; but HTTP failures of the optional
filter and details steps never change whether a result is returned. -/
theorem hotel_pipeline_failure_policy (city : String) (net : HotelNet) :
    (searchHotelsPipeline false city net = none) ∧
    (searchDestinationStep net.dest = none →
      searchHotelsPipeline true city net = none) ∧
    (∀ st, searchDestinationStep net.dest = some (false, st) →
      searchHotelsPipeline true city net = none) ∧
    (∀ st, searchDestinationStep net.dest = some (true, st) →
      searchHotelsStep st net.hotels = none →
      searchHotelsPipeline true city net = none) ∧
    (∀ st r dataV, searchDestinationStep net.dest = some (true, st) →
      searchHotelsStep st net.hotels = some r →
      r.get "data" = some dataV →
      dataV.get "hotels" = some (Json.arr []) →
      searchHotelsPipeline true city net = none) ∧
    (∀ f d, (searchHotelsPipeline true city
        { net with filter := f, details := d }).isSome =
      (searchHotelsPipeline true city net).isSome) := by
  refine ⟨by simp [searchHotelsPipeline], ?_, ?_, ?_, ?_, ?_⟩
  · intro h
    simp [searchHotelsPipeline, searchHotelsCore, h]
  · intro st h
    simp [searchHotelsPipeline, searchHotelsCore, h]
  · intro st h h2
    simp [searchHotelsPipeline, searchHotelsCore, h, h2]
  · intro st r dataV h h2 h3 h4
    have hd : dataV.truthy = true := Json.truthy_of_get h4
    simp [searchHotelsPipeline, searchHotelsCore, h, h2, h3, h4, hd,
      Json.truthy, jsLenOpt]
  · intro f d
    have hcore : searchHotelsCore city { net with filter := f, details := d } =
        searchHotelsCore city net := rfl
    simp only [searchHotelsPipeline, hcore]
    cases searchHotelsCore city net <;> simp

/-- Witness for `hotel_pipeline_failure_policy`: a destination resolve
with zero results yields the null outcome. -/
theorem hotel_pipeline_failure_policy_witness :
    searchHotelsPipeline true "Atlantis"
      { dest := some (Json.obj [("data", Json.arr [])]),
        filter := none, hotels := none, details := none } = none :=
  (hotel_pipeline_failure_policy "Atlantis"
      { dest := some (Json.obj [("data", Json.arr [])]),
        filter := none, hotels := none, details := none }).2.2.1
    ⟨some (Json.str ""), some (Json.str ""), some (Json.str "")⟩ rfl

/-- Claim C5, counterexample.  Under the heuristic extraction of the
Lovable serve handler, the user message "I'm from London and have
$3000 and want to relax at beaches" does not produce origin, budget,
activities or weather fields: the only update the heuristic can make
is to store the entire last user message as the destination. -/
theorem heuristic_no_keyword_tables :
    heuristicUpdates none "What is your destination?"
        [⟨"user", londonMsg⟩] =
      [("destination", Json.str londonMsg)] ∧
    (heuristicUpdates none "What is your destination?"
        [⟨"user", londonMsg⟩]).lookup "origin" = none ∧
    (heuristicUpdates none "What is your destination?"
        [⟨"user", londonMsg⟩]).lookup "budget" = none ∧
    (heuristicUpdates none "What is your destination?"
        [⟨"user", londonMsg⟩]).lookup "activities" = none ∧
    (heuristicUpdates none "What is your destination?"
        [⟨"user", londonMsg⟩]).lookup "weather_preference" = none :=
  ⟨rfl, rfl, rfl, rfl, rfl⟩

/-- Claim C5, amended.  The heuristic mode extracts only the
destination: when the conversation has no destination yet, the model
reply mentions "destination" (case-insensitively) and a user message
exists, the entire text of the last user message is stored as the
destination; no origin, budget, activity or weather keyword scanning
exists, and no other field is ever produced. -/
theorem heuristic_only_destination (cd : Option Json) (ai : String)
    (msgs : List ChatMessage) :
    (∀ k v, (k, v) ∈ heuristicUpdates cd ai msgs →
      k = "destination" ∧
      ∃ m, lastUserMessage msgs = some m ∧ v = Json.str m.content) ∧
    (jsTruthy cd = true → heuristicUpdates cd ai msgs = []) ∧
    (∀ m, jsTruthy cd = false →
      hasSub "destination".data (jsLower ai.data) = true →
      lastUserMessage msgs = some m →
      heuristicUpdates cd ai msgs = [("destination", Json.str m.content)]) := by
  refine ⟨?_, ?_, ?_⟩
  · intro k v hm
    unfold heuristicUpdates at hm
    split at hm
    · cases hl : lastUserMessage msgs with
      | none => rw [hl] at hm; simp at hm
      | some m =>
        rw [hl] at hm
        simp at hm
        exact ⟨hm.1, m, rfl, hm.2⟩
    · simp at hm
  · intro h
    unfold heuristicUpdates
    rw [if_neg]
    intro hc
    rw [h] at hc
    simp at hc
  · intro m h1 h2 h3
    unfold heuristicUpdates
    rw [if_pos ⟨by simp [h1], h2⟩, h3]

/-- Witness for `heuristic_only_destination`. -/
theorem heuristic_only_destination_witness :
    heuristicUpdates none "Tell me your destination"
      [⟨"assistant", "hi"⟩, ⟨"user", "Rome please"⟩] =
      [("destination", Json.str "Rome please")] :=
  (heuristic_only_destination none "Tell me your destination"
      [⟨"assistant", "hi"⟩, ⟨"user", "Rome please"⟩]).2.2
    ⟨"user", "Rome please"⟩ rfl rfl rfl

theorem enrichLoop_text_fixed (d y : List Char) :
    ∀ (ms : List JsMatch) (st : EnrichState), st.text = y →
      (∀ m ∈ ms, matchBlocked y d m = true) →
      (ms.foldl (enrichStep d) st).text = y := by
  intro ms
  induction ms with
  | nil =>
    intro st hst _
    simpa using hst
  | cons m rest ih =>
    intro st hst hall
    have hm := hall m (by simp)
    have hrest : ∀ m' ∈ rest, matchBlocked y d m' = true :=
      fun m' hm' => hall m' (by simp [hm'])
    rw [List.foldl_cons]
    apply ih _ _ hrest
    simp only [enrichStep]
    split_ifs with h1 h2 h3
    all_goals try simpa using hst
    exfalso
    simp only [matchBlocked] at hm
    rw [if_neg (by omega), if_neg (by omega)] at hm
    rw [hst] at h3
    exact h3 hm

/-- Claim C6, counterexample.  The enricher is not idempotent: on the
text `"Visit Take A Chance."` the first pass appends a link whose
bracket-and-URL text itself matches the place pattern on the second
pass (the alternation has no word boundaries and `:` is a terminator),
producing a fresh URL that passes the idempotence guard, so
`enrich(enrich(t, d), d) ≠ enrich(t, d)`. -/
theorem enrich_not_idempotent :
    parseRecommendationsWithLinks
        (parseRecommendationsWithLinks "Visit Take A Chance." "Paris")
        "Paris" ≠
      parseRecommendationsWithLinks "Visit Take A Chance." "Paris" := by
  decide

/-- Claim C6, amended.  A link is appended only when its exact URL is
not already present in the text, and an enrichment pass over a text in
which every pattern match is blocked (capture or normalized name
shorter than 3 characters, or map URL already present) returns the
text unchanged — so re-enriching an output like the Louvre scenario's
is the identity; full idempotence fails in general because an appended
link's own text can match the place pattern on the next pass. -/
theorem enrich_fixed_point (y d : String)
    (h : ∀ m ∈ scanMatches y.data, matchBlocked y.data d.data m = true) :
    parseRecommendationsWithLinks y d = y := by
  unfold parseRecommendationsWithLinks enrichRun
  rw [enrichLoop_text_fixed d.data y.data (scanMatches y.data)
    ⟨y.data, [], []⟩ rfl h]

/-- Witness for `enrich_fixed_point`: enriching `"Visit Louvre."` for
`"Paris"` yields `louvreEnriched`, and enriching that output again
leaves it unchanged. -/
theorem enrich_fixed_point_witness :
    parseRecommendationsWithLinks louvreEnriched "Paris" = louvreEnriched ∧
    parseRecommendationsWithLinks "Visit Louvre." "Paris" = louvreEnriched :=
  ⟨enrich_fixed_point louvreEnriched "Paris" (by decide), rfl⟩

/-- Claim C7, counterexample.  In a single enrichment call over
`"Visit LOUVRE. Explore Louvre (the museum)."` the enricher appends
two links whose place names `LOUVRE` and `Louvre` are
case-insensitively identical after normalization: the dedup set is
checked against the raw trimmed capture (`"louvre (the museum)"`) but
stores normalized names, and the two URLs differ in case, so the
URL-presence guard does not fire either. -/
theorem enrich_two_links_case_insensitive_collision :
    appendedNames "Visit LOUVRE. Explore Louvre (the museum)." "Paris" =
      ["LOUVRE".data, "Louvre".data] ∧
    jsLower "LOUVRE".data = jsLower "Louvre".data ∧
    "LOUVRE".data ≠ "Louvre".data := by
  exact ⟨rfl, rfl, by decide⟩

theorem enrichRun_append_guard_aux (d : List Char) :
    ∀ (ms : List JsMatch) (st : EnrichState),
      (∀ a ∈ st.appended, 3 ≤ a.name.length ∧
        hasSub a.url a.textBefore = false ∧
        a.url = createGoogleMapsUrl a.name d) →
      ∀ a ∈ (ms.foldl (enrichStep d) st).appended,
        3 ≤ a.name.length ∧ hasSub a.url a.textBefore = false ∧
        a.url = createGoogleMapsUrl a.name d := by
  intro ms
  induction ms with
  | nil => intro st h; simpa using h
  | cons m rest ih =>
    intro st h
    rw [List.foldl_cons]
    apply ih
    intro a ha
    simp only [enrichStep] at ha
    split_ifs at ha with h1 h2 h3
    all_goals try exact h a (by simpa using ha)
    simp only [List.mem_append, List.mem_singleton] at ha
    rcases ha with hold | hnew
    · exact h a hold
    · subst hnew
      refine ⟨?_, ?_, rfl⟩
      · show 3 ≤ (normalizePlaceName (jsTrim m.capture)).length
        omega
      · show hasSub (createGoogleMapsUrl (normalizePlaceName
            (jsTrim m.capture)) d) st.text = false
        simpa using h3

/-- Claim C7, amended.  In one enrichment call, every appended link has
a normalized place name of at least 3 characters, its URL is built
from the normalized name and the destination, and at the moment of
appending that exact URL is not yet present in the text; the dedup set
only blocks a later match whose raw trimmed capture lowercases to an
already-stored normalized name, so two links for distinct raw captures
with case-insensitively identical normalized names remain possible. -/
theorem enrich_append_guards (t d : String) :
    ∀ a ∈ (enrichRun t.data d.data).appended,
      3 ≤ a.name.length ∧ hasSub a.url a.textBefore = false ∧
      a.url = createGoogleMapsUrl a.name d.data := by
  intro a ha
  exact enrichRun_append_guard_aux d.data (scanMatches t.data)
    ⟨t.data, [], []⟩ (by simp) a ha

/-- Witness for `enrich_append_guards` at the Louvre scenario's single
append. -/
theorem enrich_append_guards_witness :
    3 ≤ "Louvre".data.length ∧
    hasSub (createGoogleMapsUrl "Louvre".data "Paris".data)
      "Visit Louvre.".data = false ∧
    createGoogleMapsUrl "Louvre".data "Paris".data =
      createGoogleMapsUrl "Louvre".data "Paris".data :=
  enrich_append_guards "Visit Louvre." "Paris"
    ⟨"Louvre".data, createGoogleMapsUrl "Louvre".data "Paris".data,
     "Visit Louvre.".data⟩ (by decide)
